import Mathlib

/-!
Verification of the ParamedAI clinical decision pipeline (backend/app).

The Python modules `services/drug_calculator.py`, `services/triage_engine.py`,
`services/clinical_decision.py`, `core/prompt_builder.py` and
`core/rag_engine.py` are shallowly embedded below.  Python floats and ints
are modelled as exact rationals tagged with their Python runtime type
(`PyNum`), so that `str()` / format-string rendering can be reproduced
faithfully for the terminating-decimal constants used by the code.
-/

namespace ParamedAI

/-- An exact (not necessarily reduced) fraction with positive denominator,
used to model Python numbers.  All numeric literals in the source are
terminating decimals, so the exact value coincides with the binary double
for every comparison the code performs.  (Mathlib `ℚ` is avoided because
its normalizing arithmetic does not reduce inside the kernel.) -/
structure PyRat where
  num : ℤ
  den : ℕ
deriving DecidableEq, Repr, Inhabited

/-- The fraction `n / 1`. -/
def PyRat.ofInt (n : ℤ) : PyRat := ⟨n, 1⟩

/-- Exact product of fractions. -/
def PyRat.mulR (a b : PyRat) : PyRat := ⟨a.num * b.num, a.den * b.den⟩

/-- Value comparison `a < b` (denominators are positive by construction). -/
def PyRat.ltB (a b : PyRat) : Bool :=
  a.num * (b.den : ℤ) < b.num * (a.den : ℤ)

/-- Value equality `a == b`. -/
def PyRat.eqB (a b : PyRat) : Bool :=
  a.num * (b.den : ℤ) == b.num * (a.den : ℤ)

/-- Whether the fraction is an integer. -/
def PyRat.isIntB (a : PyRat) : Bool := a.num.emod (a.den : ℤ) == 0

/-- A Python number: an exact value together with whether the Python
runtime value is a `float` (`true`) or an `int` (`false`). -/
structure PyNum where
  q : PyRat
  isFloat : Bool
deriving DecidableEq, Repr, Inhabited

/-- A Python `int` literal. -/
def pint (n : ℤ) : PyNum := ⟨⟨n, 1⟩, false⟩

/-- A Python `float` literal with decimal value `n / d`. -/
def pfloat (n : ℤ) (d : ℕ) : PyNum := ⟨⟨n, d⟩, true⟩

/-- Python multiplication: `int * int` is an `int`, anything else a `float`. -/
def PyNum.mul (a b : PyNum) : PyNum := ⟨a.q.mulR b.q, a.isFloat || b.isFloat⟩

/-- Left-pad a string with zeros up to the given length. -/
def padZeros (s : String) (len : ℕ) : String :=
  String.mk (List.replicate (len - s.length) '0') ++ s

/-- The least `k ≤ 40` such that `x * 10^k` is an integer, if any. -/
def PyRat.decDigits (a : PyRat) : Option ℕ :=
  (List.range 41).find? fun k => (a.num.natAbs * 10 ^ k) % a.den = 0

/-- Render a fraction with a terminating decimal expansion using the
fewest decimal digits (mirrors Python `repr` on the exact decimal
constants used in the source). -/
def ratToDecimal (x : PyRat) : String :=
  let sign := if x.num < 0 then "-" else ""
  match x.decDigits with
  | none => sign ++ toString x.num.natAbs ++ "/" ++ toString x.den
  | some 0 => sign ++ toString (x.num.natAbs / x.den)
  | some k =>
    let s := padZeros (toString ((x.num.natAbs * 10 ^ k) / x.den)) (k + 1)
    let n := s.data.length - k
    sign ++ String.mk (s.data.take n) ++ "." ++ String.mk (s.data.drop n)

/-- `str()` of a `PyNum`: Python prints an integral float as `N.0`. -/
def PyNum.pyStr (a : PyNum) : String :=
  if a.isFloat then
    if a.q.isIntB then
      (if a.q.num < 0 then "-" else "") ++
        toString (a.q.num.natAbs / a.q.den) ++ ".0"
    else ratToDecimal a.q
  else
    (if a.q.num < 0 then "-" else "") ++ toString (a.q.num.natAbs / a.q.den)

/-- Python `f"{x:.2f}"` fixed two-decimal formatting (round half to
even, as for the exactly-representable values the code formats). -/
def fmt2 (x : PyRat) : String :=
  let n := x.num * 100
  let d := (x.den : ℤ)
  let fl := Int.fdiv n d
  let rem := n - fl * d
  let v :=
    if 2 * rem < d then fl
    else if d < 2 * rem then fl + 1
    else if fl % 2 = 0 then fl else fl + 1
  let sign := if v < 0 then "-" else ""
  let m := v.natAbs
  sign ++ toString (m / 100) ++ "." ++ padZeros (toString (m % 100)) 2

/-- Substring test on character lists (Python `needle in hay`). -/
def subList : List Char → List Char → Bool
  | nd, hy =>
    if nd.isPrefixOf hy then true
    else match hy with
      | [] => false
      | _ :: t => subList nd t

/-- Python `needle in hay` for strings. -/
def strContains (hay needle : String) : Bool := subList needle.data hay.data

/-- Index of the first occurrence of `nd` in `hy`, if any. -/
def findSubIdx (nd : List Char) : List Char → Option ℕ
  | [] => if nd.isPrefixOf [] then some 0 else none
  | c :: t =>
    if nd.isPrefixOf (c :: t) then some 0
    else (findSubIdx nd t).map (· + 1)

/-- Python `str.lower()` (ASCII case folding as used by the source). -/
def pyLower (s : String) : String := String.mk (s.data.map Char.toLower)

/-- Python `str.upper()`. -/
def pyUpper (s : String) : String := String.mk (s.data.map Char.toUpper)

/-- Replace every (non-overlapping, leftmost-first) occurrence of `pat` in
the character list, with fuel for termination.  Mirrors Python
`str.replace` for the non-empty patterns used by the source. -/
def replaceAux (pat rep : List Char) : ℕ → List Char → List Char
  | _, [] => []
  | 0, s => s
  | fuel + 1, c :: t =>
    if pat ≠ [] ∧ pat.isPrefixOf (c :: t) then
      rep ++ replaceAux pat rep fuel (List.drop (pat.length - 1) t)
    else c :: replaceAux pat rep fuel t

/-- Python `s.replace(pat, rep)` for non-empty `pat`. -/
def pyReplace (s pat rep : String) : String :=
  String.mk (replaceAux pat.data rep.data s.data.length s.data)

/-- Python `str.strip()` (whitespace on both ends). -/
def pyStrip (s : String) : String :=
  String.mk
    (((s.data.dropWhile Char.isWhitespace).reverse.dropWhile
        Char.isWhitespace).reverse)

/-- `", ".join(...)`-style joining on character-list level. -/
def joinWith (sep : String) (parts : List String) : String :=
  match parts with
  | [] => ""
  | p :: rest => rest.foldl (fun acc x => acc ++ sep ++ x) p

/-- An uncaught Python exception (`TypeError`), modelled as the error
channel of `Except` wherever the embedded code can raise. -/
inductive PyExc where
  | typeError
deriving DecidableEq, Repr

/-! ## Triage engine (`services/triage_engine.py`)

Optional assessment fields are `Option` values; a Python default of `None`
and an explicitly passed `None` are indistinguishable and both map to
`none`.  For `classify_jumpstart`, the Python parameter default `avpu="A"`
and an explicit `avpu=None` behave identically (neither satisfies the
`avpu and avpu.upper() in ("P", "U")` test), so `avpu : Option String`
covers both, with `none` standing for any falsy value. -/

/-- Result of one triage classification (`classify_start` /
`classify_jumpstart` return dict). -/
structure TriageResult where
  category : String
  label : String
  priority : ℕ
  action : String
  algorithm : String
  step : String
deriving DecidableEq, Repr

/-- `TriageEngine.classify_start`, lines 13–101: the adult START decision
tree, first matching rule wins. -/
def classify_start (can_walk : Option Bool) (breathing : Option Bool)
    (respiratory_rate : Option ℤ) (perfusion_check : Option Bool)
    (capillary_refill : Option PyRat) (radial_pulse : Option Bool)
    (mental_status : Option String) (follows_commands : Option Bool) :
    TriageResult :=
  if can_walk == some true then
    ⟨"GREEN", "Minor / Ambulatory", 3, "Delayed treatment area", "START",
      "Walking wounded"⟩
  else if breathing == some false then
    ⟨"BLACK", "Deceased / Expectant", 4, "Morgue area", "START",
      "Not breathing after airway maneuver"⟩
  else if (match respiratory_rate with
      | some r => decide (r > 30)
      | none => false) then
    ⟨"RED", "Immediate", 1, "Immediate treatment area", "START",
      "Respiratory rate > 30/min"⟩
  else if radial_pulse == some false ||
      (match capillary_refill with
        | some c => PyRat.ltB (PyRat.ofInt 2) c
        | none => false) then
    ⟨"RED", "Immediate", 1, "Immediate treatment area - control bleeding",
      "START", "Inadequate perfusion"⟩
  else if follows_commands == some false then
    ⟨"RED", "Immediate", 1, "Immediate treatment area", "START",
      "Cannot follow commands"⟩
  else
    ⟨"YELLOW", "Delayed", 2, "Delayed treatment area", "START",
      "Breathing, adequate perfusion, follows commands, cannot walk"⟩

/-- Truthiness of the `avpu` argument followed by the membership test
`avpu.upper() in ("P", "U")`. -/
def avpuRed (avpu : Option String) : Bool :=
  match avpu with
  | some s => !(s == "") && (pyUpper s == "P" || pyUpper s == "U")
  | none => false

/-- `TriageEngine.classify_jumpstart`, lines 103–209: the pediatric
JumpSTART decision tree.  `age_years` is accepted but not consulted by the
body (exactly as in the source). -/
def classify_jumpstart (age_years : PyRat) (can_walk : Option Bool)
    (breathing : Option Bool) (respiratory_rate : Option ℤ)
    (radial_pulse : Option Bool) (avpu : Option String)
    (capillary_refill : Option PyRat) (follows_commands : Option Bool) :
    TriageResult :=
  if can_walk == some true then
    ⟨"GREEN", "Minor", 3, "Minor treatment area", "JumpSTART",
      "Walking wounded"⟩
  else if breathing == some false then
    ⟨"RED", "Immediate", 1,
      "Give 5 rescue breaths, reassess. If still not breathing -> BLACK",
      "JumpSTART", "Not breathing - attempt rescue breaths"⟩
  else if (match respiratory_rate with
      | some r => decide (r < 15) || decide (r > 45)
      | none => false) then
    ⟨"RED", "Immediate", 1, "Immediate treatment", "JumpSTART",
      "Abnormal RR (" ++
        (match respiratory_rate with | some r => toString r | none => "") ++
        "/min) - normal range 15-45 for pediatric"⟩
  else if radial_pulse == some false ||
      (match capillary_refill with
        | some c => PyRat.ltB (PyRat.ofInt 2) c
        | none => false) then
    ⟨"RED", "Immediate", 1, "Immediate - control bleeding", "JumpSTART",
      "Inadequate perfusion"⟩
  else if avpuRed avpu then
    ⟨"RED", "Immediate", 1, "Immediate treatment", "JumpSTART",
      "Altered mental status (AVPU: " ++
        (match avpu with | some s => pyUpper s | none => "") ++ ")"⟩
  else if follows_commands == some false then
    ⟨"RED", "Immediate", 1, "Immediate treatment", "JumpSTART",
      "Cannot follow commands"⟩
  else
    ⟨"YELLOW", "Delayed", 2, "Delayed treatment area", "JumpSTART",
      "Breathing, adequate perfusion, appropriate mental status, cannot walk"⟩

/-- `TriageEngine.classify`, lines 211–228: age-gated dispatch of the
`**kwargs` dict.  The `avpu` argument models *key presence* in the
kwargs: `none` means the caller did not pass `avpu`, `some v` that it
passed the value `v` (itself `Option String`, `none` being Python
`None`).  In the pediatric branch `classify_jumpstart` receives the
passed value, or its parameter default `"A"` when the key is absent;
every other kwarg exists in both signatures (or is absorbed by
`classify_jumpstart`'s `**kwargs`).  In the adult branch, however,
`classify_start` has no `avpu` parameter and no `**kwargs`, so a call
that passed `avpu` raises `TypeError: unexpected keyword argument` —
modelled by the `Except` error channel. -/
def classify (age_years : Option PyRat) (can_walk : Option Bool)
    (breathing : Option Bool) (respiratory_rate : Option ℤ)
    (perfusion_check : Option Bool) (capillary_refill : Option PyRat)
    (radial_pulse : Option Bool) (mental_status : Option String)
    (follows_commands : Option Bool) (avpu : Option (Option String)) :
    Except PyExc TriageResult :=
  match age_years with
  | some a =>
    if PyRat.ltB a (PyRat.ofInt 8) then
      Except.ok (classify_jumpstart a can_walk breathing respiratory_rate
        radial_pulse (match avpu with | some v => v | none => some "A")
        capillary_refill follows_commands)
    else
      match avpu with
      | some _ => Except.error PyExc.typeError
      | none =>
        Except.ok (classify_start can_walk breathing respiratory_rate
          perfusion_check capillary_refill radial_pulse mental_status
          follows_commands)
  | none =>
    match avpu with
    | some _ => Except.error PyExc.typeError
    | none =>
      Except.ok (classify_start can_walk breathing respiratory_rate
        perfusion_check capillary_refill radial_pulse mental_status
        follows_commands)

/-- The category/priority pairing demanded by the data model. -/
def triageOk (r : TriageResult) : Prop :=
  (r.category = "RED" ∧ r.priority = 1) ∨
  (r.category = "YELLOW" ∧ r.priority = 2) ∨
  (r.category = "GREEN" ∧ r.priority = 3) ∨
  (r.category = "BLACK" ∧ r.priority = 4)

instance (r : TriageResult) : Decidable (triageOk r) := by
  unfold triageOk
  infer_instance

/-! ## Drug dose calculator (`services/drug_calculator.py`)

The static table `EMERGENCY_DRUGS` is transcribed below.  The `volume`
keys of some entries are omitted: they are never read by any code path.
Numeric literals keep their Python runtime type through `pint` / `pfloat`.
Key order of the Python dicts (which is observable through
`list(...)[0]` and `', '.join(...)`) is preserved by the
association-list representation. -/

/-- One adult or pediatric dosing entry.  `dose`, `route`, `concentration`,
`frequency`, `max_dose` and `warning` are present in every entry of the
source table, so they are plain strings; the three numeric fields are
optional exactly where the source omits them (a `dose_per_kg` of Python
`None` is `none`). -/
structure Dosing where
  dose : String
  dose_per_kg : Option PyNum
  fixed_dose_mg : Option PyNum
  route : String
  concentration : String
  frequency : String
  max_dose : String
  max_dose_mg : Option PyNum
  warning : String
deriving DecidableEq, Repr, Inhabited

/-- The `{"adult": ..., "pediatric": ...}` pair of one indication. -/
structure IndicationEntry where
  adult : Dosing
  pediatric : Dosing
deriving DecidableEq, Repr, Inhabited

/-- One drug record: generic name and indication mapping. -/
structure Drug where
  generic_name : String
  indications : List (String × IndicationEntry)
deriving DecidableEq, Repr, Inhabited

/-- `EMERGENCY_DRUGS`, `drug_calculator.py` lines 12–540. -/
def EMERGENCY_DRUGS : List (String × Drug) := [
  ("adrenalin",
    { generic_name := "Epinephrine (Adrenaline)"
      indications := [
        ("anaphylaxis",
          { adult :=
              { dose := "0.5 mg IM", dose_per_kg := none
                fixed_dose_mg := some (pfloat 5 10)
                route := "IM (anterolateral thigh)"
                concentration := "1:1000 (1 mg/mL)"
                frequency := "Every 5 minutes if no improvement"
                max_dose := "No max (repeat every 5 min as needed)"
                max_dose_mg := none
                warning := "IM only in prehospital. IV only by experienced physicians." }
            pediatric :=
              { dose := "0.01 mg/kg IM", dose_per_kg := some (pfloat 1 100)
                fixed_dose_mg := none
                route := "IM (anterolateral thigh)"
                concentration := "1:1000 (1 mg/mL)"
                frequency := "Every 5 minutes if no improvement"
                max_dose := "0.5 mg per dose"
                max_dose_mg := some (pfloat 5 10)
                warning := "Max 0.3 mg for <6 years, 0.5 mg for >6 years. IM only." } }),
        ("cardiac_arrest",
          { adult :=
              { dose := "1 mg IV/IO", dose_per_kg := none
                fixed_dose_mg := some (pfloat 1 1)
                route := "IV/IO"
                concentration := "1:10,000 (0.1 mg/mL)"
                frequency := "Every 3-5 minutes"
                max_dose := "No max during resuscitation"
                max_dose_mg := none
                warning := "Shockable rhythm: give after 3rd shock. Non-shockable: give immediately." }
            pediatric :=
              { dose := "0.01 mg/kg IV/IO", dose_per_kg := some (pfloat 1 100)
                fixed_dose_mg := none
                route := "IV/IO"
                concentration := "1:10,000 (0.1 mg/mL)"
                frequency := "Every 3-5 minutes"
                max_dose := "1 mg per dose"
                max_dose_mg := some (pfloat 1 1)
                warning := "0.1 mL/kg of 1:10,000 solution. Use 1:10,000 for IV, never 1:1000 IV in children." } })] }),
  ("amiodaron",
    { generic_name := "Amiodarone"
      indications := [
        ("vf_vt",
          { adult :=
              { dose := "300 mg IV bolus (first dose), 150 mg IV (second dose)"
                dose_per_kg := none
                fixed_dose_mg := some (pint 300)
                route := "IV/IO bolus"
                concentration := "50 mg/mL"
                frequency := "First dose after 3rd shock, second dose after 5th shock"
                max_dose := "450 mg total during arrest"
                max_dose_mg := none
                warning := "Give after 3rd defibrillation. Can cause hypotension." }
            pediatric :=
              { dose := "5 mg/kg IV/IO", dose_per_kg := some (pfloat 5 1)
                fixed_dose_mg := none
                route := "IV/IO"
                concentration := "50 mg/mL"
                frequency := "After 3rd shock, can repeat twice to max 15 mg/kg"
                max_dose := "300 mg per dose"
                max_dose_mg := some (pint 300)
                warning := "Max 15 mg/kg total. Dilute in D5W." } })] }),
  ("midazolam",
    { generic_name := "Midazolam"
      indications := [
        ("seizure",
          { adult :=
              { dose := "10 mg IM/buccal or 5 mg IV", dose_per_kg := none
                fixed_dose_mg := some (pint 10)
                route := "IM/Buccal (preferred prehospital) or IV"
                concentration := "5 mg/mL"
                frequency := "Can repeat ONCE after 10 minutes"
                max_dose := "20 mg total"
                max_dose_mg := none
                warning := "Monitor respiratory depression. Have bag-valve-mask ready." }
            pediatric :=
              { dose := "0.3 mg/kg buccal or 0.1 mg/kg IV"
                dose_per_kg := some (pfloat 3 10)
                fixed_dose_mg := none
                route := "Buccal (preferred) or IV"
                concentration := "5 mg/mL"
                frequency := "Can repeat ONCE after 10 minutes"
                max_dose := "10 mg per dose"
                max_dose_mg := some (pint 10)
                warning := "Buccal route preferred in prehospital. Monitor airway closely." } })] }),
  ("atropine",
    { generic_name := "Atropine Sulfate"
      indications := [
        ("bradycardia",
          { adult :=
              { dose := "0.5 mg IV", dose_per_kg := none
                fixed_dose_mg := some (pfloat 5 10)
                route := "IV"
                concentration := "0.5 mg/mL or 1 mg/mL"
                frequency := "Every 3-5 minutes"
                max_dose := "3 mg total"
                max_dose_mg := none
                warning := "Do not give less than 0.5 mg (may cause paradoxical bradycardia)." }
            pediatric :=
              { dose := "0.02 mg/kg IV", dose_per_kg := some (pfloat 2 100)
                fixed_dose_mg := none
                route := "IV/IO"
                concentration := "0.5 mg/mL"
                frequency := "May repeat once"
                max_dose := "0.5 mg per dose (child), 1 mg (adolescent)"
                max_dose_mg := some (pfloat 5 10)
                warning := "Minimum dose 0.1 mg. May cause paradoxical bradycardia if underdosed." } })] }),
  ("morphine",
    { generic_name := "Morphine Sulfate"
      indications := [
        ("pain",
          { adult :=
              { dose := "2-5 mg IV titrated", dose_per_kg := none
                fixed_dose_mg := some (pint 5)
                route := "IV (slow push over 5 min)"
                concentration := "10 mg/mL"
                frequency := "Every 5-15 minutes, titrate to pain relief"
                max_dose := "20 mg total prehospital"
                max_dose_mg := none
                warning := "Monitor RR and SpO2. Have naloxone ready. Contraindicated in hypotension (SBP<90)." }
            pediatric :=
              { dose := "0.1 mg/kg IV", dose_per_kg := some (pfloat 1 10)
                fixed_dose_mg := none
                route := "IV (slow push)"
                concentration := "10 mg/mL (dilute to 1 mg/mL for peds)"
                frequency := "Every 5-15 minutes"
                max_dose := "5 mg per dose"
                max_dose_mg := some (pint 5)
                warning := "Dilute to 1 mg/mL. Monitor respiratory depression closely. Have naloxone ready." } })] }),
  ("salbutamol",
    { generic_name := "Salbutamol (Albuterol)"
      indications := [
        ("asthma",
          { adult :=
              { dose := "5 mg nebulized", dose_per_kg := none
                fixed_dose_mg := some (pint 5)
                route := "Nebulized (with O2 6-8 L/min)"
                concentration := "5 mg/2.5 mL nebule"
                frequency := "Every 20 minutes, or continuous if severe"
                max_dose := "No max in acute severe asthma"
                max_dose_mg := none
                warning := "Can cause tachycardia, tremor. Back-to-back nebs for severe asthma." }
            pediatric :=
              { dose := "2.5 mg nebulized (<5y) or 5 mg nebulized (>5y)"
                dose_per_kg := none
                fixed_dose_mg := some (pfloat 25 10)
                route := "Nebulized"
                concentration := "2.5 mg/2.5 mL or 5 mg/2.5 mL nebule"
                frequency := "Every 20 minutes"
                max_dose := "No max in acute severe"
                max_dose_mg := none
                warning := "Use 2.5 mg for <5 years, 5 mg for >5 years. Monitor HR." } })] }),
  ("sodium_bicarbonate",
    { generic_name := "Sodium Bicarbonate"
      indications := [
        ("acidosis",
          { adult :=
              { dose := "50 mEq (50 mL of 8.4%) IV", dose_per_kg := none
                fixed_dose_mg := some (pint 50)
                route := "IV slow push"
                concentration := "8.4% (1 mEq/mL)"
                frequency := "Repeat based on ABG/clinical status"
                max_dose := "Guided by ABG"
                max_dose_mg := none
                warning := "Do not mix with calcium. Ensure adequate ventilation first." }
            pediatric :=
              { dose := "1 mEq/kg IV", dose_per_kg := some (pfloat 1 1)
                fixed_dose_mg := none
                route := "IV slow push"
                concentration := "4.2% for neonates (0.5 mEq/mL), 8.4% for children"
                frequency := "Repeat based on clinical status"
                max_dose := "50 mEq per dose"
                max_dose_mg := some (pint 50)
                warning := "Use 4.2% solution for neonates. Do not mix with calcium." } }),
        ("crush_syndrome",
          { adult :=
              { dose := "50 mEq in first liter NS", dose_per_kg := none
                fixed_dose_mg := some (pint 50)
                route := "IV (mixed in NS)"
                concentration := "8.4% (1 mEq/mL)"
                frequency := "With each liter of fluid until urine pH > 6.5"
                max_dose := "Guided by urine pH"
                max_dose_mg := none
                warning := "Start BEFORE extrication. Target urine pH > 6.5. Monitor for alkalosis." }
            pediatric :=
              { dose := "1 mEq/kg in NS", dose_per_kg := some (pfloat 1 1)
                fixed_dose_mg := none
                route := "IV (mixed in NS)"
                concentration := "4.2% or 8.4%"
                frequency := "With fluid resuscitation"
                max_dose := "50 mEq per dose"
                max_dose_mg := some (pint 50)
                warning := "Start before extrication. Use 4.2% for young children." } })] }),
  ("calcium_gluconate",
    { generic_name := "Calcium Gluconate 10%"
      indications := [
        ("hyperkalemia",
          { adult :=
              { dose := "10 mL of 10% IV over 10 min", dose_per_kg := none
                fixed_dose_mg := some (pint 1000)
                route := "IV slow push (over 10 minutes)"
                concentration := "10% (100 mg/mL)"
                frequency := "May repeat in 5-10 minutes if ECG changes persist"
                max_dose := "30 mL (3g) total"
                max_dose_mg := none
                warning := "Cardioprotective, does NOT lower potassium. Monitor ECG. Do not mix with bicarbonate." }
            pediatric :=
              { dose := "0.5 mL/kg of 10% IV over 10 min"
                dose_per_kg := some (pint 50)
                fixed_dose_mg := none
                route := "IV slow push (over 10 minutes)"
                concentration := "10% (100 mg/mL)"
                frequency := "May repeat once"
                max_dose := "10 mL (1g) per dose"
                max_dose_mg := some (pint 1000)
                warning := "Give slowly. Monitor for bradycardia. Do not mix with bicarbonate." } }),
        ("crush_syndrome",
          { adult :=
              { dose := "10 mL of 10% IV over 10 min", dose_per_kg := none
                fixed_dose_mg := some (pint 1000)
                route := "IV slow push"
                concentration := "10% (100 mg/mL)"
                frequency := "Repeat if peaked T waves on ECG"
                max_dose := "30 mL (3g)"
                max_dose_mg := none
                warning := "Give BEFORE extrication for cardioprotection. Monitor ECG for peaked T waves." }
            pediatric :=
              { dose := "0.5 mL/kg of 10% IV", dose_per_kg := some (pint 50)
                fixed_dose_mg := none
                route := "IV slow push"
                concentration := "10%"
                frequency := "Repeat if ECG changes"
                max_dose := "10 mL per dose"
                max_dose_mg := some (pint 1000)
                warning := "Give before extrication. Monitor ECG." } })] }),
  ("aspirin",
    { generic_name := "Acetylsalicylic Acid (Aspirin)"
      indications := [
        ("acs",
          { adult :=
              { dose := "300 mg PO (chew)", dose_per_kg := none
                fixed_dose_mg := some (pint 300)
                route := "PO (chew and swallow)"
                concentration := "300 mg tablet"
                frequency := "Single dose"
                max_dose := "300 mg"
                max_dose_mg := none
                warning := "Chew for faster absorption. Contraindicated if aspirin allergy or active GI bleeding." }
            pediatric :=
              { dose := "Not typically used in pediatric ACS prehospital"
                dose_per_kg := none
                fixed_dose_mg := none
                route := "N/A"
                concentration := "N/A"
                frequency := "N/A"
                max_dose := "N/A"
                max_dose_mg := none
                warning := "NOT recommended for pediatric patients (Reye syndrome risk). Consult medical control." } })] }),
  ("nitroglycerin",
    { generic_name := "Nitroglycerin (GTN)"
      indications := [
        ("chest_pain",
          { adult :=
              { dose := "0.4 mg SL", dose_per_kg := none
                fixed_dose_mg := some (pfloat 4 10)
                route := "Sublingual spray or tablet"
                concentration := "0.4 mg/dose spray"
                frequency := "Every 5 minutes, up to 3 doses"
                max_dose := "1.2 mg (3 doses)"
                max_dose_mg := none
                warning := "Contraindicated if SBP < 90, RV infarct, or phosphodiesterase inhibitors (sildenafil) in last 24-48h." }
            pediatric :=
              { dose := "Not typically used in pediatric prehospital"
                dose_per_kg := none
                fixed_dose_mg := none
                route := "N/A"
                concentration := "N/A"
                frequency := "N/A"
                max_dose := "N/A"
                max_dose_mg := none
                warning := "NOT routinely used in pediatric prehospital. Consult medical control." } })] }),
  ("magnesium_sulfate",
    { generic_name := "Magnesium Sulfate"
      indications := [
        ("eclampsia",
          { adult :=
              { dose := "4 g IV loading over 15-20 min, then 1 g/hour infusion"
                dose_per_kg := none
                fixed_dose_mg := some (pint 4000)
                route := "IV infusion"
                concentration := "50% (500 mg/mL) diluted in 100 mL NS"
                frequency := "Loading dose, then continuous infusion"
                max_dose := "Loading: 4g. Maintenance: 1g/hr"
                max_dose_mg := none
                warning := "Monitor RR (stop if <12), DTR, urine output. Antidote: Calcium gluconate 1g IV." }
            pediatric :=
              { dose := "25-50 mg/kg IV over 20 min", dose_per_kg := some (pint 50)
                fixed_dose_mg := none
                route := "IV infusion"
                concentration := "50% diluted"
                frequency := "Single dose, may repeat once"
                max_dose := "2 g per dose"
                max_dose_mg := some (pint 2000)
                warning := "Monitor respiratory rate and reflexes." } }),
        ("torsades",
          { adult :=
              { dose := "2 g IV over 10 min", dose_per_kg := none
                fixed_dose_mg := some (pint 2000)
                route := "IV"
                concentration := "50% (500 mg/mL) diluted"
                frequency := "Single dose, may repeat once"
                max_dose := "4 g total"
                max_dose_mg := none
                warning := "For Torsades de Pointes specifically. Monitor BP during infusion." }
            pediatric :=
              { dose := "25-50 mg/kg IV over 10-20 min", dose_per_kg := some (pint 50)
                fixed_dose_mg := none
                route := "IV"
                concentration := "50% diluted"
                frequency := "Single dose"
                max_dose := "2 g per dose"
                max_dose_mg := some (pint 2000)
                warning := "Monitor for hypotension and respiratory depression." } })] }),
  ("ketamine",
    { generic_name := "Ketamine"
      indications := [
        ("sedation",
          { adult :=
              { dose := "1-2 mg/kg IV or 4 mg/kg IM", dose_per_kg := some (pfloat 15 10)
                fixed_dose_mg := none
                route := "IV (slow push) or IM"
                concentration := "50 mg/mL or 100 mg/mL"
                frequency := "May repeat 0.5-1 mg/kg IV every 10-15 min"
                max_dose := "4.5 mg/kg total IV"
                max_dose_mg := none
                warning := "Dissociative agent. Maintain airway reflexes. May cause emergence reactions. Avoid in head injury with raised ICP." }
            pediatric :=
              { dose := "1-2 mg/kg IV or 3-4 mg/kg IM", dose_per_kg := some (pfloat 15 10)
                fixed_dose_mg := none
                route := "IV or IM"
                concentration := "50 mg/mL"
                frequency := "May repeat 0.5 mg/kg every 10 min"
                max_dose := "Based on weight"
                max_dose_mg := none
                warning := "Excellent safety profile in children. Have suction ready." } })] }),
  ("ondansetron",
    { generic_name := "Ondansetron (Zofran)"
      indications := [
        ("nausea",
          { adult :=
              { dose := "4 mg IV or 4 mg ODT (oral dissolving tablet)"
                dose_per_kg := none
                fixed_dose_mg := some (pint 4)
                route := "IV (slow push over 2 min) or ODT"
                concentration := "2 mg/mL"
                frequency := "Every 4-6 hours"
                max_dose := "16 mg/day"
                max_dose_mg := none
                warning := "May prolong QT interval. Use caution with other QT-prolonging drugs." }
            pediatric :=
              { dose := "0.1 mg/kg IV (max 4 mg) or 4 mg ODT (>4y)"
                dose_per_kg := some (pfloat 1 10)
                fixed_dose_mg := none
                route := "IV or ODT"
                concentration := "2 mg/mL"
                frequency := "Every 4-6 hours"
                max_dose := "4 mg per dose"
                max_dose_mg := some (pint 4)
                warning := "Not recommended under 6 months. Check QTc if available." } })] }),
  ("dexamethasone",
    { generic_name := "Dexamethasone"
      indications := [
        ("croup",
          { adult :=
              { dose := "N/A (croup is pediatric)", dose_per_kg := none
                fixed_dose_mg := none
                route := "N/A"
                concentration := "N/A"
                frequency := "N/A"
                max_dose := "N/A"
                max_dose_mg := none
                warning := "Croup is a pediatric condition. See pediatric dosing." }
            pediatric :=
              { dose := "0.6 mg/kg PO/IM", dose_per_kg := some (pfloat 6 10)
                fixed_dose_mg := none
                route := "PO (preferred) or IM"
                concentration := "4 mg/mL"
                frequency := "Single dose"
                max_dose := "16 mg"
                max_dose_mg := some (pint 16)
                warning := "Single dose is usually sufficient. Works within 1-2 hours." } }),
        ("inflammation",
          { adult :=
              { dose := "4-8 mg IV/IM", dose_per_kg := none
                fixed_dose_mg := some (pint 8)
                route := "IV or IM"
                concentration := "4 mg/mL"
                frequency := "Every 6-12 hours"
                max_dose := "24 mg/day"
                max_dose_mg := none
                warning := "Not first-line in anaphylaxis (use adrenaline). Adjunct therapy only." }
            pediatric :=
              { dose := "0.15-0.6 mg/kg IV/IM/PO", dose_per_kg := some (pfloat 3 10)
                fixed_dose_mg := none
                route := "IV/IM/PO"
                concentration := "4 mg/mL"
                frequency := "Every 6-12 hours"
                max_dose := "16 mg per dose"
                max_dose_mg := some (pint 16)
                warning := "Adjunct therapy. Not a substitute for adrenaline in anaphylaxis." } })] }),
  ("furosemide",
    { generic_name := "Furosemide (Lasix)"
      indications := [
        ("pulmonary_edema",
          { adult :=
              { dose := "40-80 mg IV", dose_per_kg := none
                fixed_dose_mg := some (pint 40)
                route := "IV (slow push over 2 min)"
                concentration := "10 mg/mL"
                frequency := "May repeat in 1-2 hours"
                max_dose := "200 mg single dose"
                max_dose_mg := none
                warning := "Monitor BP (may cause hypotension). Monitor potassium. Ensure urinary catheter for large doses." }
            pediatric :=
              { dose := "1 mg/kg IV", dose_per_kg := some (pfloat 1 1)
                fixed_dose_mg := none
                route := "IV (slow push)"
                concentration := "10 mg/mL"
                frequency := "Every 6-8 hours"
                max_dose := "6 mg/kg/day"
                max_dose_mg := none
                warning := "Monitor electrolytes and BP. May cause ototoxicity at high doses." } })] })]

/-- A GenUI widget as emitted by the drug calculator: a type tag and a
string-to-string data mapping (every data value emitted on these paths is
a string). -/
structure Widget where
  type : String
  data : List (String × String)
deriving DecidableEq, Repr

/-- Return value of `DrugCalculator.calculate`: either one of the two
structured error dicts (lines 589–601 and 621–633) or the success dict
(lines 653–677).  Constructor argument names follow the dict keys. -/
inductive CalcResult where
  | errorDrug (error : String) (available_drugs : List String)
      (widget : Widget)
  | errorIndication (error : String) (available_indications : List String)
      (widget : Widget)
  | ok (drug_name : String) (indication : String) (dose : String)
      (calculated_dose : String) (route : String) (concentration : String)
      (frequency : String) (max_dose : String) (warning : String)
      (pediatric_note : Option String) (widget : Widget)
deriving DecidableEq, Repr

/-- `True` when `calculate` returned one of the two error dicts
(`"error" in result` in Python). -/
def CalcResult.isError : CalcResult → Bool
  | .errorDrug _ _ _ => true
  | .errorIndication _ _ _ => true
  | .ok _ _ _ _ _ _ _ _ _ _ _ => false

/-- The `calculated_dose` field of a success result (empty for errors). -/
def CalcResult.calculatedDose : CalcResult → String
  | .ok _ _ _ cd _ _ _ _ _ _ _ => cd
  | _ => ""

/-- The `pediatric_note` field of a success result. -/
def CalcResult.pediatricNote : CalcResult → Option String
  | .ok _ _ _ _ _ _ _ _ _ pn _ => pn
  | _ => none

/-- `DrugCalculator.get_available_drugs`, lines 550–553. -/
def get_available_drugs : List String := EMERGENCY_DRUGS.map Prod.fst

/-- `DrugCalculator.get_drug_indications`, lines 555–561: note that the
argument is only case-folded (`drug_name.lower()`), with no separator
replacement. -/
def get_drug_indications (drug_name : String) : List String :=
  match EMERGENCY_DRUGS.lookup (pyLower drug_name) with
  | none => []
  | some drug => drug.indications.map Prod.fst

/-- The drug/indication key normalization used by `calculate`, lines
585 and 615: case-fold and replace spaces and hyphens by underscores. -/
def normalizeKey (s : String) : String :=
  pyReplace (pyReplace (pyLower s) " " "_") "-" "_"

/-- `_get_pregnancy_warning`, lines 720–739. -/
def get_pregnancy_warning (drug_key : String) : String :=
  let pregnancy_warnings : List (String × String) := [
    ("adrenalin", "Gebelikte kullanilabilir (hayat kurtarici). Uterin kan akisini azaltabilir."),
    ("amiodaron", "Gebelikte kontrendike (fetal tiroid disfonksiyonu). Yalnizca hayat tehdit edici aritmi icin."),
    ("midazolam", "Gebelikte dikkatli kullanin. Ilk trimesterde teratojenik risk."),
    ("atropine", "Gebelikte kullanilabilir. Fetal tasikardiyi izleyin."),
    ("morphine", "Dikkatli kullanin. Yenidoganda solunum depresyonu riski. Doguma yakin donemde kacinmaya calisin."),
    ("salbutamol", "Gebelikte guvenli. Tokoliz icin de kullanilir."),
    ("sodium_bicarbonate", "Gebelikte gerektiginde kullanilabilir."),
    ("calcium_gluconate", "Gebelikte guvenli. Eklampsi tedavisinde Mg toksisitesi antidotu."),
    ("aspirin", "Gebelikte dikkat: 3. trimesterde kontrendike (duktus arteriosus erken kapanmasi)."),
    ("nitroglycerin", "Gebelikte dikkat: Hipotansiyon fetal perfuzyonu bozabilir."),
    ("magnesium_sulfate", "Eklampsi tedavisinde ilk secenektir. Fetal kalp hizini izleyin."),
    ("ketamine", "Gebelikte nispeten guvenli. Uterin tonusu artirir."),
    ("ondansetron", "Gebelikte guvenli (ilk trimester sonrasi). Hiperemezis gravidarumda kullanilir."),
    ("dexamethasone", "Fetal akcigar matUrasyonu icin kullanilabilir. Uzun sureli kullanim sakincali."),
    ("furosemide", "Gebelikte dikkatli kullanin. Plasental perfuzyonu azaltabilir.")]
  (pregnancy_warnings.lookup drug_key).getD
    "Gebelikte guvenlik bilgisi sinirlidir. Dikkatli kullanin."

/-- `_calculate_dose`, lines 682–717: per-kg rate capped at
`max_dose_mg`, else fixed dose, else the human-readable dose string; the
salbutamol pediatric age-band special case bypasses everything. -/
def calculate_dose (dosing : Dosing) (weight_kg : PyNum) (drug_key : String)
    (is_pediatric : Bool) (age_years : Option PyNum) : String :=
  if drug_key == "salbutamol" && is_pediatric then
    match age_years with
    | some a => if PyRat.ltB (PyRat.ofInt 5) a.q then "5 mg nebulize (>5 yas)"
                else "2.5 mg nebulize (<5 yas)"
    | none => "2.5 mg nebulize (<5 yas)"
  else
    match dosing.dose_per_kg with
    | some rate =>
      let raw := rate.mul weight_kg
      match dosing.max_dose_mg with
      | some m =>
        if PyRat.ltB m.q raw.q then
          m.pyStr ++ " mg (max doz, hesaplanan: " ++ fmt2 raw.q ++
            " mg [" ++ rate.pyStr ++ " mg/kg x " ++ weight_kg.pyStr ++ " kg])"
        else
          fmt2 raw.q ++ " mg (" ++ rate.pyStr ++ " mg/kg x " ++
            weight_kg.pyStr ++ " kg)"
      | none =>
        fmt2 raw.q ++ " mg (" ++ rate.pyStr ++ " mg/kg x " ++
          weight_kg.pyStr ++ " kg)"
    | none =>
      match dosing.fixed_dose_mg with
      | some f =>
        let unit := if drug_key == "sodium_bicarbonate" then "mEq" else "mg"
        f.pyStr ++ " " ++ unit ++ " (sabit doz)"
      | none => dosing.dose

/-- `DrugCalculator.calculate`, lines 563–679.  The dead salbutamol
special-case statement at lines 607–610 is a `pass` and is omitted; the
`if indication:` truthiness test of line 614 treats both `None` and the
empty string as absent; the default indication
`list(indications.keys())[0]` is modelled with `headD ""` (every drug
in the table has at least one indication, so the Python `IndexError`
case is unreachable). -/
def calculate (drug_name : String) (weight_kg : PyNum)
    (indication : Option String) (is_pediatric : Bool)
    (age_years : Option PyNum) (is_pregnant : Bool) : CalcResult :=
  let drug_key := normalizeKey drug_name
  match EMERGENCY_DRUGS.lookup drug_key with
  | none =>
    .errorDrug ("Drug '" ++ drug_name ++ "' not found in database.")
      (EMERGENCY_DRUGS.map Prod.fst)
      ⟨"WarningCard",
        [("title", "Ilac Bulunamadi"),
         ("message", "'" ++ drug_name ++
            "' veritabaninda bulunamadi. Mevcut ilaclar: " ++
            joinWith ", " (EMERGENCY_DRUGS.map Prod.fst)),
         ("severity", "WARNING"),
         ("action", "Ilac adini kontrol edin.")]⟩
  | some drug =>
    let is_pediatric := match age_years with
      | some a => if PyRat.ltB a.q (PyRat.ofInt 18) then true else is_pediatric
      | none => is_pediatric
    let indications := drug.indications
    let indication_key := match indication with
      | some i =>
        if i == "" then ((indications.map Prod.fst).headD "")
        else normalizeKey i
      | none => ((indications.map Prod.fst).headD "")
    match indications.lookup indication_key with
    | none =>
      .errorIndication
        ("Indication '" ++
          (match indication with | some i => i | none => "None") ++
          "' not found for " ++ drug_name ++ ".")
        (indications.map Prod.fst)
        ⟨"WarningCard",
          [("title", "Endikasyon Bulunamadi"),
           ("message", "'" ++
              (match indication with | some i => i | none => "None") ++
              "' endikasyonu '" ++ drug_name ++
              "' icin bulunamadi. Mevcut endikasyonlar: " ++
              joinWith ", " (indications.map Prod.fst)),
           ("severity", "WARNING"),
           ("action", "Endikasyonu kontrol edin.")]⟩
    | some entry =>
      let dosing := if is_pediatric then entry.pediatric else entry.adult
      let calculated_dose :=
        calculate_dose dosing weight_kg drug_key is_pediatric age_years
      let pregnancy_warning :=
        if is_pregnant then get_pregnancy_warning drug_key else ""
      let warning_parts :=
        [dosing.warning] ++
          (if pregnancy_warning == "" then []
           else ["GEBELIK: " ++ pregnancy_warning])
      let full_warning :=
        joinWith " " (warning_parts.filter (fun p => !(p == "")))
      .ok drug.generic_name indication_key dosing.dose calculated_dose
        dosing.route dosing.concentration dosing.frequency dosing.max_dose
        full_warning
        (if is_pediatric
         then some ("Pediatrik doz (" ++ weight_kg.pyStr ++ " kg)")
         else none)
        ⟨"DrugDoseCard",
          [("drugName", drug.generic_name),
           ("dose", dosing.dose),
           ("calculatedDose", calculated_dose),
           ("route", dosing.route),
           ("concentration", dosing.concentration),
           ("frequency", dosing.frequency),
           ("warning", full_warning),
           ("maxDose", dosing.max_dose)]⟩

/-! ## Decision orchestrator (`services/clinical_decision.py`)

`ClinicalDecisionService._check_drug_query`, lines 106–201: drug-query
short-circuit.  The embedding splits the function into the parameter
extraction (lines 111–184, `check_drug_query`) and the final calculator
invocation and response formatting (lines 186–201,
`check_drug_query_response`), so that the arguments handed to the Drug
Dosing Engine are directly observable. -/

/-- The `patient_context` dict fields read by `_check_drug_query`.
`weight_kg`/`age_years`/`indication` are `none` when the key is absent
(`dict.get` default); `is_pediatric`/`is_pregnant` model the value of
`get(key, False)`. -/
structure PatientContext where
  weight_kg : Option PyNum
  age_years : Option PyNum
  is_pediatric : Bool
  is_pregnant : Bool
  indication : Option String
deriving DecidableEq, Repr

/-- The argument tuple passed to `DrugCalculator.calculate` at lines
187–194. -/
structure DrugParams where
  drug_name : String
  weight_kg : PyNum
  indication : Option String
  is_pediatric : Bool
  age_years : Option PyNum
  is_pregnant : Bool
deriving DecidableEq, Repr, Inhabited

/-- Parse a digit run as a natural number. -/
def digitsToNat (cs : List Char) : ℕ :=
  cs.foldl (fun n c => n * 10 + (c.toNat - 48)) 0

/-- Python `float()` of a captured decimal number (digits with an
optional fraction part). -/
def parseCapturedFloat (cs : List Char) : PyNum :=
  let ip := cs.takeWhile Char.isDigit
  let rest := cs.drop ip.length
  match rest with
  | '.' :: fr => ⟨⟨digitsToNat (ip ++ fr), 10 ^ fr.length⟩, true⟩
  | _ => ⟨⟨digitsToNat ip, 1⟩, true⟩

/-- One attempt of the pattern `(\d+(?:\.\d+)?)\s*(?:unit1|unit2|...)`
anchored at the current position: a greedy digit run, an optional
fraction (tried first, then dropped, as the regex engine backtracks),
optional whitespace, then one of the unit alternatives. -/
def tryNumberUnitAt (units : List (List Char)) (cs : List Char) :
    Option (List Char) :=
  let d1 := cs.takeWhile Char.isDigit
  if d1.isEmpty then none
  else
    let rest1 := cs.drop d1.length
    let tryOne (numtext : List Char) (rest : List Char) :
        Option (List Char) :=
      let rest2 := rest.dropWhile Char.isWhitespace
      if units.any (fun u => u.isPrefixOf rest2) then some numtext else none
    match rest1 with
    | '.' :: r2 =>
      let d2 := r2.takeWhile Char.isDigit
      if d2.isEmpty then tryOne d1 rest1
      else
        match tryOne (d1 ++ '.' :: d2) (r2.drop d2.length) with
        | some t => some t
        | none => tryOne d1 rest1
    | _ => tryOne d1 rest1

/-- `re.search` of the number-then-unit pattern: leftmost position wins,
returning the captured number group. -/
def scanNumberUnit (units : List (List Char)) : List Char →
    Option (List Char)
  | [] => none
  | c :: t =>
    match tryNumberUnitAt units (c :: t) with
    | some s => some s
    | none => scanNumberUnit units t

/-- The weight regex of line 154: `(\d+(?:\.\d+)?)\s*(?:kg|kilo)`. -/
def extractWeight (msg_lower : String) : Option PyNum :=
  (scanNumberUnit ["kg".data, "kilo".data] msg_lower.data).map
    parseCapturedFloat

/-- The age regex of line 158: `(\d+(?:\.\d+)?)\s*(?:yas|year|yo|y\.o\.)`. -/
def extractAge (msg_lower : String) : Option PyNum :=
  (scanNumberUnit ["yas".data, "year".data, "yo".data, "y.o.".data]
      msg_lower.data).map parseCapturedFloat

/-- Drug-mention scan, lines 113–127: first table key (in table order)
one of whose variants (`key`, `key` with underscores as spaces, `key`
with underscores removed) occurs in the lower-cased message. -/
def matchedDrug (msg_lower : String) : Option String :=
  (EMERGENCY_DRUGS.map Prod.fst).find? fun drug =>
    [drug, pyReplace drug "_" " ", pyReplace drug "_" ""].any fun v =>
      strContains msg_lower v

/-- Dosing-intent keywords, lines 130–133. -/
def dose_keywords : List String :=
  ["doz", "dose", "mg", "dozaj", "hesapla", "calculate",
   "kac", "how much", "ne kadar", "uygula", "ver"]

/-- Pediatric keywords, line 163. -/
def pediatric_keywords : List String :=
  ["cocuk", "child", "pediatr", "bebek", "infant", "neonatal"]

/-- Pregnancy keywords, line 170. -/
def pregnancy_keywords : List String :=
  ["gebe", "hamile", "pregnant", "gebelik"]

/-- Indication detection, lines 175–184: first indication of the matched
drug whose variants occur in the message. -/
def detectIndication (msg_lower : String) (drug : String) :
    Option String :=
  (get_drug_indications drug).find? fun ind =>
    [ind, pyReplace ind "_" " "].any fun v => strContains msg_lower v

/-- `_check_drug_query` parameter extraction, lines 111–184.  Returns
`none` when the short-circuit does not fire (no drug mention or no dosing
keyword), otherwise the arguments for `calculate`: defaults (weight
70.0), then `patient_context` values, then regex-extracted message
values, then the pediatric keyword adjustment (weight 20.0 whenever the
current weight equals 70.0). -/
def check_drug_query (message : String)
    (patient_context : Option PatientContext) : Option DrugParams :=
  let msg_lower := pyLower message
  match matchedDrug msg_lower with
  | none => none
  | some drug =>
    if !(dose_keywords.any fun kw => strContains msg_lower kw) then none
    else
      let w0 : PyNum := pfloat 70 1
      let ctxv := match patient_context with
        | some ctx =>
          (ctx.weight_kg.getD w0, ctx.age_years, ctx.is_pediatric,
            ctx.is_pregnant, ctx.indication)
        | none => (w0, none, false, false, none)
      let w1 := ctxv.1
      let w2 := match extractWeight msg_lower with
        | some w => w
        | none => w1
      let a2 := match extractAge msg_lower with
        | some a => some a
        | none => ctxv.2.1
      let isPedKw := pediatric_keywords.any fun kw =>
        strContains msg_lower kw
      let ped2 := if isPedKw then true else ctxv.2.2.1
      let w3 :=
        if isPedKw && PyRat.eqB w2.q (PyRat.ofInt 70) then pfloat 20 1
        else w2
      let preg2 :=
        if pregnancy_keywords.any (fun kw => strContains msg_lower kw)
        then true else ctxv.2.2.2.1
      let ind2 := match ctxv.2.2.2.2 with
        | some i => some i
        | none => detectIndication msg_lower drug
      some ⟨drug, w3, ind2, ped2, a2, preg2⟩

/-- The `drug_name` of a success result, else the fallback
(`result.get('drug_name', matched_drug)`). -/
def CalcResult.drugNameD (fallback : String) : CalcResult → String
  | .ok dn _ _ _ _ _ _ _ _ _ _ => dn
  | _ => fallback

/-- `result.get('indication', 'general')`. -/
def CalcResult.indicationD : CalcResult → String
  | .ok _ i _ _ _ _ _ _ _ _ _ => i
  | _ => "general"

/-- `result["widget"]` (present on every branch of `calculate`). -/
def CalcResult.widgetOf : CalcResult → Widget
  | .errorDrug _ _ w => w
  | .errorIndication _ _ w => w
  | .ok _ _ _ _ _ _ _ _ _ _ w => w

/-- `_check_drug_query` tail, lines 186–201: invoke the calculator and
format the short-circuit response. -/
def check_drug_query_response (message : String)
    (patient_context : Option PatientContext) :
    Option (String × List Widget) :=
  (check_drug_query message patient_context).map fun p =>
    let result := calculate p.drug_name p.weight_kg p.indication
      p.is_pediatric p.age_years p.is_pregnant
    (result.drugNameD p.drug_name ++ " - " ++ result.indicationD ++ ": " ++
        result.calculatedDose,
      [result.widgetOf])

/-! ## GenUI response parser (`core/prompt_builder.py`)

`PromptBuilder.parse_genui_response`, lines 171–241.  The `json.loads`
call is modelled by an executable JSON decoder (`jsonDecode`); Python
exceptions that the function does *not* catch (it only catches
`json.JSONDecodeError`) are modelled by the `Except` error channel. -/

/-- A parsed JSON document. -/
inductive Json where
  | null
  | bool (b : Bool)
  | num (n : PyRat)
  | str (s : String)
  | arr (elems : List Json)
  | obj (fields : List (String × Json))
deriving Repr

/-- `dict.get` on a parsed object; later duplicate keys win, as in
`json.loads`. -/
def jGet (kvs : List (String × Json)) (k : String) : Option Json :=
  (kvs.reverse.find? (fun kv => kv.fst == k)).map Prod.snd

/-- JSON whitespace. -/
def skipWs (cs : List Char) : List Char :=
  cs.dropWhile fun c => c == ' ' || c == '\t' || c == '\n' || c == '\r'

/-- Is this an ASCII hex digit? -/
def isHexDigit (c : Char) : Bool :=
  c.isDigit || ('a' ≤ c && c ≤ 'f') || ('A' ≤ c && c ≤ 'F')

/-- Hex digit value. -/
def hexVal (c : Char) : ℕ :=
  if c.isDigit then c.toNat - 48
  else if 'a' ≤ c && c ≤ 'f' then c.toNat - 87
  else c.toNat - 55

/-- JSON string body (after the opening quote), with fuel. -/
def parseJString (acc : List Char) : ℕ → List Char →
    Option (String × List Char)
  | 0, _ => none
  | _, [] => none
  | fuel + 1, c :: r =>
    if c == '"' then some (String.mk acc.reverse, r)
    else if c == '\\' then
      match r with
      | [] => none
      | e :: r2 =>
        if e == '"' then parseJString ('"' :: acc) fuel r2
        else if e == '\\' then parseJString ('\\' :: acc) fuel r2
        else if e == '/' then parseJString ('/' :: acc) fuel r2
        else if e == 'b' then parseJString ('\x08' :: acc) fuel r2
        else if e == 'f' then parseJString ('\x0c' :: acc) fuel r2
        else if e == 'n' then parseJString ('\n' :: acc) fuel r2
        else if e == 'r' then parseJString ('\r' :: acc) fuel r2
        else if e == 't' then parseJString ('\t' :: acc) fuel r2
        else if e == 'u' then
          match r2 with
          | h1 :: h2 :: h3 :: h4 :: r3 =>
            if isHexDigit h1 && isHexDigit h2 && isHexDigit h3 &&
                isHexDigit h4 then
              let code := ((hexVal h1 * 16 + hexVal h2) * 16 + hexVal h3) *
                16 + hexVal h4
              parseJString (Char.ofNat code :: acc) fuel r3
            else none
          | _ => none
        else none
    else if c.toNat < 32 then none
    else parseJString (c :: acc) fuel r

/-- JSON number, returned as an exact fraction. -/
def parseJNumber (cs : List Char) : Option (PyRat × List Char) :=
  let (neg, cs1) := match cs with
    | '-' :: r => (true, r)
    | _ => (false, cs)
  let ip := cs1.takeWhile Char.isDigit
  if ip.isEmpty then none
  else
    let cs2 := cs1.drop ip.length
    let (fr, cs3) := match cs2 with
      | '.' :: r =>
        let d := r.takeWhile Char.isDigit
        (d, r.drop d.length)
      | _ => ([], cs2)
    if (match cs2 with | '.' :: _ => fr.isEmpty | _ => false) then none
    else
      let (expOk, e, cs4) := match cs3 with
        | 'e' :: r | 'E' :: r =>
          let (esign, r2) := match r with
            | '+' :: t => ((1 : ℤ), t)
            | '-' :: t => ((-1 : ℤ), t)
            | _ => ((1 : ℤ), r)
          let ed := r2.takeWhile Char.isDigit
          if ed.isEmpty then (false, (0 : ℤ), cs3)
          else (true, esign * (digitsToNat ed : ℤ), r2.drop ed.length)
        | _ => (true, 0, cs3)
      if !expOk then none
      else
        let mant : ℤ := digitsToNat (ip ++ fr)
        let mant := if neg then -mant else mant
        let shift : ℤ := e - (fr.length : ℤ)
        let v : PyRat :=
          if 0 ≤ shift then ⟨mant * (10 : ℤ) ^ shift.natAbs, 1⟩
          else ⟨mant, 10 ^ shift.natAbs⟩
        some (v, cs4)

mutual

/-- One JSON value, with fuel (the nesting consumes fuel). -/
def parseJValue : ℕ → List Char → Option (Json × List Char)
  | 0, _ => none
  | fuel + 1, cs =>
    match skipWs cs with
    | 'n' :: 'u' :: 'l' :: 'l' :: r => some (.null, r)
    | 't' :: 'r' :: 'u' :: 'e' :: r => some (.bool true, r)
    | 'f' :: 'a' :: 'l' :: 's' :: 'e' :: r => some (.bool false, r)
    | '"' :: r =>
      (parseJString [] (r.length + 1) r).map fun p => (.str p.1, p.2)
    | '[' :: r =>
      (match skipWs r with
       | ']' :: r2 => some (.arr [], r2)
       | r2 =>
         (parseJElems fuel r2).map fun p => (.arr p.1, p.2))
    | '\x7b' :: r =>
      (match skipWs r with
       | '\x7d' :: r2 => some (.obj [], r2)
       | r2 =>
         (parseJFields fuel r2).map fun p => (.obj p.1, p.2))
    | cs2 => (parseJNumber cs2).map fun p => (.num p.1, p.2)

/-- Array elements after `[`, with fuel. -/
def parseJElems : ℕ → List Char → Option (List Json × List Char)
  | 0, _ => none
  | fuel + 1, cs =>
    match parseJValue fuel cs with
    | none => none
    | some (v, rest) =>
      match skipWs rest with
      | ',' :: r2 =>
        (parseJElems fuel r2).map fun p => (v :: p.1, p.2)
      | ']' :: r2 => some ([v], r2)
      | _ => none

/-- Object fields after `{`, with fuel. -/
def parseJFields : ℕ → List Char →
    Option (List (String × Json) × List Char)
  | 0, _ => none
  | fuel + 1, cs =>
    match skipWs cs with
    | '"' :: r =>
      match parseJString [] (r.length + 1) r with
      | none => none
      | some (k, rest) =>
        match skipWs rest with
        | ':' :: r2 =>
          match parseJValue fuel r2 with
          | none => none
          | some (v, rest2) =>
            match skipWs rest2 with
            | ',' :: r3 =>
              (parseJFields fuel r3).map fun p => ((k, v) :: p.1, p.2)
            | '\x7d' :: r3 => some ([(k, v)], r3)
            | _ => none
        | _ => none
    | _ => none

end

/-- `json.loads` on a string: parse one value and require only trailing
whitespace.  `none` models `json.JSONDecodeError`. -/
def jsonDecode (s : String) : Option Json :=
  match parseJValue (s.data.length + 1) s.data with
  | some (v, rest) => if (skipWs rest).isEmpty then some v else none
  | none => none

/-- The fenced-code-block regex of line 184,
``` ```(?:json)?\s*\n?(.*?)\n?``` ``` with `re.DOTALL`: content between
the first fence (with an optional `json` tag) and the next fence,
stripped (the `re` group is `.strip()`-ed by the caller at line 186, so
the `\s*\n?` / `\n?` whitespace borders collapse). -/
def extractFenced (s : String) : Option String :=
  match findSubIdx "```".data s.data with
  | none => none
  | some i =>
    let rest := s.data.drop (i + 3)
    let rest2 := if "json".data.isPrefixOf rest then rest.drop 4 else rest
    match findSubIdx "```".data rest2 with
    | none => none
    | some j => some (pyStrip (String.mk (rest2.take j)))

/-- The raw-JSON regex of line 189, `\{.*\}` with `re.DOTALL`: from the
first `{` to the last `}` (greedy `.*`), requiring the `}` after the
`{`. -/
def extractBraces (s : String) : Option String :=
  let cs := s.data
  match cs.findIdx? (fun c => c == '\x7b') with
  | none => none
  | some i =>
    match cs.reverse.findIdx? (fun c => c == '\x7d') with
    | none => none
    | some rj =>
      let j := cs.length - 1 - rj
      if i < j then some (pyStrip (String.mk ((cs.drop i).take (j - i + 1))))
      else none

/-- A validated widget (`{"type": ..., "data": ...}`), line 211–214. -/
structure GWidget where
  type : Json
  data : Json
deriving Repr

/-- The `{text, widgets}` return dict of `parse_genui_response`. -/
structure GenuiResult where
  text : Json
  widgets : List GWidget
deriving Repr

/-- Python `for widget in widgets`: iterating a list yields its elements,
a string its characters, a dict its keys; other values raise
`TypeError` (not iterable). -/
def jsonIter : Json → Option (List Json)
  | .arr xs => some xs
  | .str s => some (s.data.map fun c => Json.str (String.mk [c]))
  | .obj kvs => some (kvs.map fun kv => Json.str kv.fst)
  | _ => none

/-- The widget validation loop, lines 208–214: keep dict entries holding
a `type` key, with `data` defaulting to `{}`. -/
def validateWidgets (items : List Json) : List GWidget :=
  items.filterMap fun w =>
    match w with
    | .obj kvs =>
      match jGet kvs "type" with
      | some t => some ⟨t, (jGet kvs "data").getD (.obj [])⟩
      | none => none
    | _ => none

/-- The fallback warning widget attached on a JSON decode failure,
lines 228–241. -/
def decodeFailWidget : GWidget :=
  ⟨.str "WarningCard",
    .obj [("title", .str "Response Format Warning"),
          ("message", .str "AI response could not be parsed as structured data. Showing raw text."),
          ("severity", .str "INFO"),
          ("action", .str "Review the text response above.")]⟩

/-- `PromptBuilder.parse_genui_response`, lines 171–241.  The `try`
block catches only `json.JSONDecodeError`; a `TypeError` raised while
iterating a non-iterable `widgets` value escapes as `.error`. -/
def parse_genui_response (response_text : String) :
    Except PyExc GenuiResult :=
  let candidate := match extractFenced response_text with
    | some j => some j
    | none => extractBraces response_text
  match candidate with
  | none => .ok ⟨.str (pyStrip response_text), []⟩
  | some json_str =>
    match jsonDecode json_str with
    | none => .ok ⟨.str (pyStrip response_text), [decodeFailWidget]⟩
    | some parsed =>
      match parsed with
      | .obj kvs =>
        let text := (jGet kvs "text").getD (.str "")
        let widgets := (jGet kvs "widgets").getD (.arr [])
        match jsonIter widgets with
        | none => .error .typeError
        | some items => .ok ⟨text, validateWidgets items⟩
      | _ => .ok ⟨.str (pyStrip response_text), []⟩

/-! ## Retrieval engine (`core/rag_engine.py`)

`RAGEngine.retrieve`, lines 367–412.  The ChromaDB nearest-neighbour
query is an external collaborator: its returned rows (document text,
metadata title, cosine distance) are taken as an input of the embedded
function, and the collection state is abstracted to `none`
(uninitialized) or the list of stored documents (for the count). -/

/-- One row of the ChromaDB query result. -/
structure QueryRow where
  document : String
  title : Option String
  distance : PyRat
deriving Repr

/-- `max(0, 1 - distance)`, line 407. -/
def relevance (d : PyRat) : PyRat :=
  let v : PyRat := ⟨(d.den : ℤ) - d.num, d.den⟩
  if PyRat.ltB v ⟨0, 1⟩ then ⟨0, 1⟩ else v

/-- One `[title] (relevance: score)\n<body>` block, line 410. -/
def formatPart (i : ℕ) (row : QueryRow) : String :=
  let title := row.title.getD ("Protocol " ++ toString (i + 1))
  "[" ++ title ++ "] (relevance: " ++ fmt2 (relevance row.distance) ++
    ")\n" ++ row.document

/-- The filter-and-format loop, lines 402–410: keep rows with
relevance strictly above `0.3`. -/
def contextParts (rows : List QueryRow) : List String :=
  rows.enum.filterMap fun p =>
    if PyRat.ltB ⟨3, 10⟩ (relevance p.2.distance) then
      some (formatPart p.1 p.2)
    else none

/-- `RAGEngine.retrieve`, lines 367–412 (post-query part). -/
def retrieve (collection : Option (List String)) (rows : List QueryRow) :
    String :=
  match collection with
  | none => ""
  | some docs =>
    if docs.length == 0 then ""
    else if rows.isEmpty then ""
    else joinWith "\n\n---\n\n" (contextParts rows)

/-! ## Auxiliary definitions for the claim statements -/

/-- A dosing entry that carries either a per-kilogram rate or a fixed
absolute dose. -/
def hasDoseInfo (d : Dosing) : Prop :=
  d.dose_per_kg ≠ none ∨ d.fixed_dose_mg ≠ none

instance (d : Dosing) : Decidable (hasDoseInfo d) := by
  unfold hasDoseInfo
  infer_instance

/-- The three explicitly not-applicable dosing arms of the source table
(drug key, indication key, pediatric arm?): these carry neither a
per-kilogram rate nor a fixed dose and fall through to the
human-readable dose string. -/
def naEntries : List (String × String × Bool) :=
  [("aspirin", "acs", true),
   ("nitroglycerin", "chest_pain", true),
   ("dexamethasone", "croup", false)]

/-- Table access by drug key and indication key. -/
def indEntry (dk ik : String) : Option IndicationEntry :=
  (EMERGENCY_DRUGS.lookup dk).bind fun d => d.indications.lookup ik

/-! ## Theorems -/

/-- String append is associative. -/
theorem strAppend_assoc (a b c : String) : a ++ b ++ c = a ++ (b ++ c) := by
  cases a
  cases b
  cases c
  show String.mk _ = String.mk _
  rw [List.append_assoc]

/-- Any pair returned by `List.lookup` is (up to its key) a member of the
association list. -/
theorem lookup_mem {α β : Type} [BEq α] (l : List (α × β)) (k : α) (v : β)
    (h : l.lookup k = some v) : ∃ a, (a, v) ∈ l := by
  induction l with
  | nil => exact absurd h (by simp [List.lookup])
  | cons p t ih =>
    rw [show t.lookup k = t.lookup k from rfl] at ih
    rcases p with ⟨a, b⟩
    rw [List.lookup] at h
    by_cases hk : (k == a) = true
    · rw [hk] at h
      simp only [Option.some.injEq] at h
      exact ⟨a, by simp [h]⟩
    · rw [Bool.not_eq_true] at hk
      rw [hk] at h
      obtain ⟨a', ha⟩ := ih h
      exact ⟨a', List.mem_cons_of_mem _ ha⟩

/-- Every drug in the table resolves its own first-listed indication. -/
theorem table_first_indication :
    ∀ p ∈ EMERGENCY_DRUGS,
      (p.2.indications.lookup
        ((p.2.indications.map Prod.fst).headD "")).isSome = true := by
  decide

theorem classify_start_ok (cw b : Option Bool) (rr : Option ℤ)
    (pc : Option Bool) (cr : Option PyRat) (rp : Option Bool)
    (ms : Option String) (fc : Option Bool) :
    triageOk (classify_start cw b rr pc cr rp ms fc) := by
  unfold classify_start triageOk
  repeat' split
  all_goals
    first
      | exact Or.inl ⟨rfl, rfl⟩
      | exact Or.inr (Or.inl ⟨rfl, rfl⟩)
      | exact Or.inr (Or.inr (Or.inl ⟨rfl, rfl⟩))
      | exact Or.inr (Or.inr (Or.inr ⟨rfl, rfl⟩))

theorem classify_jumpstart_ok (a : PyRat) (cw b : Option Bool)
    (rr : Option ℤ) (rp : Option Bool) (av : Option String)
    (cr : Option PyRat) (fc : Option Bool) :
    triageOk (classify_jumpstart a cw b rr rp av cr fc) := by
  unfold classify_jumpstart triageOk
  repeat' split
  all_goals
    first
      | exact Or.inl ⟨rfl, rfl⟩
      | exact Or.inr (Or.inl ⟨rfl, rfl⟩)
      | exact Or.inr (Or.inr (Or.inl ⟨rfl, rfl⟩))

/-- C1 counterexample: the claim "every dosing entry has either a
per-kilogram rate or a fixed dose" is false for the table as written:
the pediatric arm of aspirin/acs (and two further N/A arms) has
`dose_per_kg = None` and no `fixed_dose_mg` key. -/
theorem C1_counterexample :
    (¬ ∀ p ∈ EMERGENCY_DRUGS, ∀ q ∈ p.2.indications,
        hasDoseInfo q.2.adult ∧ hasDoseInfo q.2.pediatric) ∧
    (indEntry "aspirin" "acs").map
        (fun e => (e.pediatric.dose_per_kg, e.pediatric.fixed_dose_mg)) =
      some (none, none) := by
  constructor
  · decide
  · decide

/-- C1 (amended): every dosing entry of `EMERGENCY_DRUGS` — for every
drug, indication and arm — has either a per-kilogram rate or a fixed
absolute dose, except the three explicitly not-applicable arms
(aspirin/acs pediatric, nitroglycerin/chest_pain pediatric,
dexamethasone/croup adult), which have neither. -/
theorem C1_thm :
    ∀ p ∈ EMERGENCY_DRUGS, ∀ q ∈ p.2.indications,
      ((p.1, q.1, false) ∉ naEntries → hasDoseInfo q.2.adult) ∧
      ((p.1, q.1, true) ∉ naEntries → hasDoseInfo q.2.pediatric) := by
  decide

theorem C1_witness :
    hasDoseInfo
        ((EMERGENCY_DRUGS.headD default).2.indications.headD default).2.adult ∧
    hasDoseInfo
        ((EMERGENCY_DRUGS.headD
            default).2.indications.headD default).2.pediatric := by
  have h := C1_thm (EMERGENCY_DRUGS.headD default) (by decide)
    ((EMERGENCY_DRUGS.headD default).2.indications.headD default) (by decide)
  exact ⟨h.1 (by decide), h.2 (by decide)⟩

/-- C2: the claim that `parse_genui_response` is total and never raises
is contradicted by the code: on the input `{"widgets": null}` the JSON
span is located and decoded to a dict, but iterating the non-iterable
`widgets` value `None` raises a `TypeError` that the
`except json.JSONDecodeError` handler does not catch. -/
theorem C2_thm :
    parse_genui_response "\x7b\"widgets\": null\x7d" =
      Except.error PyExc.typeError := by
  rfl

/-- C5 counterexample: with AVPU present and not P/U (`avpu = "A"`), the
JumpSTART result still depends on `follows_commands` — `False` yields
RED via the "Cannot follow commands" step, while an unset value yields
YELLOW — contradicting "the follows-commands boolean is consulted ...
only when AVPU is absent". -/
theorem C5_counterexample :
    classify_jumpstart (PyRat.ofInt 5) none none none none (some "A") none
        (some false) =
      ⟨"RED", "Immediate", 1, "Immediate treatment", "JumpSTART",
        "Cannot follow commands"⟩ ∧
    classify_jumpstart (PyRat.ofInt 5) none none none none (some "A") none
        none =
      ⟨"YELLOW", "Delayed", 2, "Delayed treatment area", "JumpSTART",
        "Breathing, adequate perfusion, appropriate mental status, cannot walk"⟩ := by
  constructor
  · decide
  · decide

/-- C5 (amended): in JumpSTART, when no earlier rule fires, an AVPU of
P or U yields RED with priority 1; and the follows-commands boolean is
consulted after the AVPU rule regardless of whether AVPU is present —
`False` yields RED whenever the AVPU rule itself did not fire. -/
theorem C5_thm (a : PyRat) (cw b : Option Bool) (rr : Option ℤ)
    (rp : Option Bool) (av : Option String) (cr : Option PyRat)
    (fc : Option Bool)
    (h1 : (cw == some true) = false)
    (h2 : (b == some false) = false)
    (h3 : (match rr with
      | some r => decide (r < 15) || decide (r > 45)
      | none => false) = false)
    (h4 : (rp == some false ||
      (match cr with
        | some c => PyRat.ltB (PyRat.ofInt 2) c
        | none => false)) = false) :
    (avpuRed av = true →
      classify_jumpstart a cw b rr rp av cr fc =
        ⟨"RED", "Immediate", 1, "Immediate treatment", "JumpSTART",
          "Altered mental status (AVPU: " ++
            (match av with | some s => pyUpper s | none => "") ++ ")"⟩) ∧
    (avpuRed av = false → fc = some false →
      classify_jumpstart a cw b rr rp av cr fc =
        ⟨"RED", "Immediate", 1, "Immediate treatment", "JumpSTART",
          "Cannot follow commands"⟩) := by
  constructor
  · intro h5
    unfold classify_jumpstart
    rw [h1, h2, h3, h4, h5]
    rfl
  · intro h5 h6
    unfold classify_jumpstart
    rw [h1, h2, h3, h4, h5, h6]
    rfl

theorem C5_witness :
    classify_jumpstart (PyRat.ofInt 4) none none none none (some "U") none
        none =
      ⟨"RED", "Immediate", 1, "Immediate treatment", "JumpSTART",
        "Altered mental status (AVPU: U)"⟩ ∧
    classify_jumpstart (PyRat.ofInt 4) none none none none none none
        (some false) =
      ⟨"RED", "Immediate", 1, "Immediate treatment", "JumpSTART",
        "Cannot follow commands"⟩ := by
  constructor
  · exact ((C5_thm (PyRat.ofInt 4) none none none none (some "U") none none
      (by decide) (by decide) (by decide) (by decide)).1 (by decide)).trans
      (by decide)
  · exact (C5_thm (PyRat.ofInt 4) none none none none none none (some false)
      (by decide) (by decide) (by decide) (by decide)).2 (by decide) rfl

/-- C6 counterexample: the claim that every call to `classify` returns
one of the four categories is false — when the JumpSTART-only `avpu`
field is passed and the adult branch is selected (age unset or not
below 8), Python forwards `avpu` to `classify_start`, which has no such
parameter, and the call raises `TypeError` instead of returning a
classification. -/
theorem C6_counterexample :
    classify (some (PyRat.ofInt 30)) none none none none none none none
        none (some (some "U")) = Except.error PyExc.typeError ∧
    classify none none none none none none none none none
        (some (some "U")) = Except.error PyExc.typeError := by
  constructor
  · rfl
  · rfl

/-- C6 (amended): `classify_start` and `classify_jumpstart` always
return a category in {RED, YELLOW, GREEN, BLACK} with the matching
priority (RED=1, YELLOW=2, GREEN=3, BLACK=4); `classify` satisfies the
same invariant whenever it returns, and it always returns when the
JumpSTART-only `avpu` field is not passed — but passing `avpu` while
the adult branch is selected raises `TypeError` instead of returning a
category. -/
theorem C6_thm :
    (∀ (cw b : Option Bool) (rr : Option ℤ) (pc : Option Bool)
        (cr : Option PyRat) (rp : Option Bool) (ms : Option String)
        (fc : Option Bool),
      triageOk (classify_start cw b rr pc cr rp ms fc)) ∧
    (∀ (a : PyRat) (cw b : Option Bool) (rr : Option ℤ) (rp : Option Bool)
        (av : Option String) (cr : Option PyRat) (fc : Option Bool),
      triageOk (classify_jumpstart a cw b rr rp av cr fc)) ∧
    (∀ (a : Option PyRat) (cw b : Option Bool) (rr : Option ℤ)
        (pc : Option Bool) (cr : Option PyRat) (rp : Option Bool)
        (ms : Option String) (fc : Option Bool)
        (av : Option (Option String)) (r : TriageResult),
      classify a cw b rr pc cr rp ms fc av = Except.ok r → triageOk r) ∧
    (∀ (a : Option PyRat) (cw b : Option Bool) (rr : Option ℤ)
        (pc : Option Bool) (cr : Option PyRat) (rp : Option Bool)
        (ms : Option String) (fc : Option Bool),
      ∃ r, classify a cw b rr pc cr rp ms fc none = Except.ok r ∧
        triageOk r) := by
  refine ⟨classify_start_ok, classify_jumpstart_ok, ?_, ?_⟩
  · intro a cw b rr pc cr rp ms fc av r h
    rcases a with _ | x
    · rcases av with _ | v
      · simp only [classify, Except.ok.injEq] at h
        subst h
        exact classify_start_ok cw b rr pc cr rp ms fc
      · simp only [classify] at h
        exact Except.noConfusion h
    · simp only [classify] at h
      by_cases hlt : PyRat.ltB x (PyRat.ofInt 8) = true
      · rw [if_pos hlt] at h
        simp only [Except.ok.injEq] at h
        subst h
        exact classify_jumpstart_ok x cw b rr rp _ cr fc
      · rw [if_neg hlt] at h
        rcases av with _ | v
        · simp only [Except.ok.injEq] at h
          subst h
          exact classify_start_ok cw b rr pc cr rp ms fc
        · exact Except.noConfusion h
  · intro a cw b rr pc cr rp ms fc
    rcases a with _ | x
    · exact ⟨classify_start cw b rr pc cr rp ms fc, rfl,
        classify_start_ok cw b rr pc cr rp ms fc⟩
    · by_cases hlt : PyRat.ltB x (PyRat.ofInt 8) = true
      · refine ⟨classify_jumpstart x cw b rr rp (some "A") cr fc, ?_,
          classify_jumpstart_ok x cw b rr rp (some "A") cr fc⟩
        simp only [classify]
        rw [if_pos hlt]
      · refine ⟨classify_start cw b rr pc cr rp ms fc, ?_,
          classify_start_ok cw b rr pc cr rp ms fc⟩
        simp only [classify]
        rw [if_neg hlt]

theorem C6_witness :
    triageOk ⟨"RED", "Immediate", 1, "Immediate treatment", "JumpSTART",
      "Altered mental status (AVPU: U)"⟩ :=
  C6_thm.2.2.1 (some (PyRat.ofInt 5)) none none none none none none none
    none (some (some "U")) _ rfl

/-- C3: whenever a dosing entry has a per-kilogram rate and a
`max_dose_mg` ceiling and `rate * weight` strictly exceeds the ceiling
(and the salbutamol special case does not apply), `_calculate_dose`
reports the ceiling value, with the uncapped computed value embedded in
the output text; and the concrete scenario
`calculate("adrenalin", weight_kg=60, indication="anaphylaxis",
age_years=15)` selects the pediatric entry and reports "0.5" with the
computed "0.60" visible. -/
theorem C3_thm :
    (∀ (d : Dosing) (w r m : PyNum) (dk : String) (ped : Bool)
        (age : Option PyNum),
      d.dose_per_kg = some r → d.max_dose_mg = some m →
      PyRat.ltB m.q ((r.mul w).q) = true →
      (dk == "salbutamol" && ped) = false →
      calculate_dose d w dk ped age =
        m.pyStr ++ " mg (max doz, hesaplanan: " ++ fmt2 ((r.mul w).q) ++
          " mg [" ++ r.pyStr ++ " mg/kg x " ++ w.pyStr ++ " kg])" ∧
      ∃ pre suf, calculate_dose d w dk ped age =
        pre ++ fmt2 ((r.mul w).q) ++ suf) ∧
    (calculate "adrenalin" (pint 60) (some "anaphylaxis") false
        (some (pint 15)) false).calculatedDose =
      "0.5 mg (max doz, hesaplanan: 0.60 mg [0.01 mg/kg x 60 kg])" ∧
    (calculate "adrenalin" (pint 60) (some "anaphylaxis") false
        (some (pint 15)) false).pediatricNote =
      some "Pediatrik doz (60 kg)" := by
  refine ⟨?_, by rfl, by rfl⟩
  intro d w r m dk ped age h1 h2 h3 h4
  have hmain : calculate_dose d w dk ped age =
      m.pyStr ++ " mg (max doz, hesaplanan: " ++ fmt2 ((r.mul w).q) ++
        " mg [" ++ r.pyStr ++ " mg/kg x " ++ w.pyStr ++ " kg])" := by
    unfold calculate_dose
    rw [h4]
    simp only [Bool.false_eq_true, if_false, h1, h2, h3, if_true]
  refine ⟨hmain, m.pyStr ++ " mg (max doz, hesaplanan: ",
    " mg [" ++ r.pyStr ++ " mg/kg x " ++ w.pyStr ++ " kg])", ?_⟩
  rw [hmain]
  simp only [strAppend_assoc]

theorem C3_witness :
    calculate_dose
        ((indEntry "adrenalin" "anaphylaxis").getD default).pediatric
        (pint 60) "adrenalin" true (some (pint 15)) =
      "0.5 mg (max doz, hesaplanan: 0.60 mg [0.01 mg/kg x 60 kg])" := by
  have h := (C3_thm.1
    ((indEntry "adrenalin" "anaphylaxis").getD default).pediatric
    (pint 60) (pfloat 1 100) (pfloat 5 10) "adrenalin" true
    (some (pint 15)) (by decide) (by decide) (by decide) (by decide)).1
  exact h.trans (by decide)

/-- C4 counterexample: the claim that explicit `patient_context` fields
override message-extracted values is false: with a context weight of
80 kg and a message containing "30 kg", the Drug Dosing Engine is
invoked with 30.0 kg (the message value overrides the context value). -/
theorem C4_counterexample :
    extractWeight (pyLower "adrenalin dose 30 kg") = some (pfloat 30 1) ∧
    (check_drug_query "adrenalin dose 30 kg"
        (some ⟨some (pint 80), none, false, false, none⟩)).map
      DrugParams.weight_kg = some (pfloat 30 1) ∧
    PyRat.eqB (pfloat 30 1).q (pint 80).q = false := by
  refine ⟨by decide, by decide, by decide⟩

/-- C4 (amended): in the drug-query short-circuit, weight and age are
extracted from the message text by regex (number followed by a
weight/age unit); the message-extracted values take precedence, and
explicit `patient_context` fields are used only when the message
contains no such figure (before the Engine is invoked, a weight equal
to 70.0 is replaced by 20.0 when a pediatric keyword is present). -/
theorem C4_thm (msg : String) (ctx : Option PatientContext)
    (p : DrugParams) (h : check_drug_query msg ctx = some p) :
    (∀ w, extractWeight (pyLower msg) = some w →
      p.weight_kg =
        (if (pediatric_keywords.any fun kw =>
              strContains (pyLower msg) kw) &&
            PyRat.eqB w.q (PyRat.ofInt 70) then pfloat 20 1 else w)) ∧
    (∀ c cw, extractWeight (pyLower msg) = none → ctx = some c →
      c.weight_kg = some cw →
      p.weight_kg =
        (if (pediatric_keywords.any fun kw =>
              strContains (pyLower msg) kw) &&
            PyRat.eqB cw.q (PyRat.ofInt 70) then pfloat 20 1 else cw)) ∧
    (∀ a, extractAge (pyLower msg) = some a → p.age_years = some a) ∧
    (∀ c, extractAge (pyLower msg) = none → ctx = some c →
      p.age_years = c.age_years) := by
  unfold check_drug_query at h
  simp only [] at h
  rcases hm : matchedDrug (pyLower msg) with _ | drug
  · rw [hm] at h
    simp only [] at h
    exact absurd h (by simp)
  · rw [hm] at h
    simp only [] at h
    by_cases hk : (!(dose_keywords.any fun kw =>
        strContains (pyLower msg) kw)) = true
    · rw [if_pos hk] at h
      exact absurd h (by simp)
    · rw [if_neg hk] at h
      simp only [Option.some.injEq] at h
      subst h
      refine ⟨?_, ?_, ?_, ?_⟩
      · intro w hw
        simp only [hw]
      · intro c cw hw hc hcw
        subst hc
        simp only [hw, hcw, Option.getD_some]
      · intro a ha
        simp only [ha]
      · intro c ha hc
        subst hc
        simp only [ha]

theorem C4_witness :
    ((check_drug_query "adrenalin dose 30 kg" none).getD
        default).weight_kg = pfloat 30 1 := by
  have h := (C4_thm "adrenalin dose 30 kg" none
    ((check_drug_query "adrenalin dose 30 kg" none).getD default)
    (by decide)).1 (pfloat 30 1) (by decide)
  exact h.trans (by decide)

/-- C7: every context block assembled by `retrieve` comes from a query
row whose similarity `max(0, 1 - distance)` is strictly greater than
0.3; retrieving against an uninitialized or empty collection returns the
empty string; and a non-empty result is exactly the join of the
above-floor blocks. -/
theorem C7_thm (coll : Option (List String)) (rows : List QueryRow) :
    ((coll = none ∨ coll = some []) → retrieve coll rows = "") ∧
    (∀ part ∈ contextParts rows, ∃ i r, (i, r) ∈ rows.enum ∧
      part = formatPart i r ∧
      PyRat.ltB ⟨3, 10⟩ (relevance r.distance) = true) ∧
    (retrieve coll rows = "" ∨
      retrieve coll rows = joinWith "\n\n---\n\n" (contextParts rows)) := by
  refine ⟨?_, ?_, ?_⟩
  · rintro (rfl | rfl)
    · rfl
    · rfl
  · intro part hp
    unfold contextParts at hp
    obtain ⟨⟨i, r⟩, hmem, hf⟩ := List.mem_filterMap.mp hp
    simp only [] at hf
    by_cases hrel : PyRat.ltB ⟨3, 10⟩ (relevance r.distance) = true
    · rw [if_pos hrel] at hf
      exact ⟨i, r, hmem, (Option.some.inj hf).symm, hrel⟩
    · rw [if_neg hrel] at hf
      exact absurd hf (by simp)
  · rcases coll with _ | docs
    · exact Or.inl rfl
    · by_cases h0 : (docs.length == 0) = true
      · exact Or.inl (by simp [retrieve, h0])
      · by_cases h1 : rows.isEmpty = true
        · exact Or.inl (by simp [retrieve, h0, h1])
        · exact Or.inr (by simp [retrieve, h0, h1])

theorem C7_witness :
    retrieve none [] = "" ∧
    (∃ i r,
      (i, r) ∈ ([⟨"doc", some "T", ⟨1, 2⟩⟩] : List QueryRow).enum ∧
      formatPart 0 ⟨"doc", some "T", ⟨1, 2⟩⟩ = formatPart i r ∧
      PyRat.ltB ⟨3, 10⟩ (relevance r.distance) = true) :=
  ⟨(C7_thm none []).1 (Or.inl rfl),
   (C7_thm (some ["doc"]) [⟨"doc", some "T", ⟨1, 2⟩⟩]).2.1
     (formatPart 0 ⟨"doc", some "T", ⟨1, 2⟩⟩) (by decide)⟩

/-- C8 counterexample: the claim that `calculate` returns a structured
error for every unknown indication fails for the empty string: `""` is
not among the indications of the (known) drug adrenalin, yet
`calculate("adrenalin", 70, indication="")` succeeds — the
`if indication:` truthiness test treats the empty string as absent and
falls back to the first-listed indication (anaphylaxis). -/
theorem C8_counterexample :
    (EMERGENCY_DRUGS.lookup (normalizeKey "adrenalin")).isSome = true ∧
    ((EMERGENCY_DRUGS.lookup (normalizeKey "adrenalin")).getD
        default).indications.lookup (normalizeKey "") = none ∧
    (calculate "adrenalin" (pint 70) (some "") false none
        false).isError = false ∧
    (calculate "adrenalin" (pint 70) (some "") false none
        false).indicationD = "anaphylaxis" := by
  refine ⟨by decide, by decide, by decide, by decide⟩

/-- C8 (amended): for every unknown drug name, `calculate` returns the
structured error dict naming the available drugs and carrying a
`WarningCard` widget; for every known drug with an explicitly provided
*non-empty* unknown indication, it returns the structured error dict
naming the available indications for that drug, also carrying a
`WarningCard` widget; a falsy indication (Python `None` or the empty
string) is instead treated exactly as an omitted indication
(first-listed indication fallback), so no error arises from it. -/
theorem C8_thm (name : String) (w : PyNum) (ind : Option String)
    (ped : Bool) (age : Option PyNum) (preg : Bool) :
    (EMERGENCY_DRUGS.lookup (normalizeKey name) = none →
      calculate name w ind ped age preg =
        CalcResult.errorDrug
          ("Drug '" ++ name ++ "' not found in database.")
          (EMERGENCY_DRUGS.map Prod.fst)
          ⟨"WarningCard",
            [("title", "Ilac Bulunamadi"),
             ("message", "'" ++ name ++
                "' veritabaninda bulunamadi. Mevcut ilaclar: " ++
                joinWith ", " (EMERGENCY_DRUGS.map Prod.fst)),
             ("severity", "WARNING"),
             ("action", "Ilac adini kontrol edin.")]⟩) ∧
    (∀ d i, EMERGENCY_DRUGS.lookup (normalizeKey name) = some d →
      ind = some i → (i == "") = false →
      d.indications.lookup (normalizeKey i) = none →
      calculate name w ind ped age preg =
        CalcResult.errorIndication
          ("Indication '" ++ i ++ "' not found for " ++ name ++ ".")
          (d.indications.map Prod.fst)
          ⟨"WarningCard",
            [("title", "Endikasyon Bulunamadi"),
             ("message", "'" ++ i ++ "' endikasyonu '" ++ name ++
                "' icin bulunamadi. Mevcut endikasyonlar: " ++
                joinWith ", " (d.indications.map Prod.fst)),
             ("severity", "WARNING"),
             ("action", "Endikasyonu kontrol edin.")]⟩) ∧
    (calculate name w (some "") ped age preg =
      calculate name w none ped age preg) := by
  refine ⟨?_, ?_, ?_⟩
  · intro h
    unfold calculate
    simp only []
    rw [h]
  · intro d i hd hi hne hind
    subst hi
    unfold calculate
    simp only []
    rw [hd]
    simp only [hne, Bool.false_eq_true, if_false, hind]
  · unfold calculate
    simp only []
    rcases h : EMERGENCY_DRUGS.lookup (normalizeKey name) with _ | d
    · rfl
    · simp only [show ("" == "") = true from rfl, if_true]
      obtain ⟨k, hk⟩ := lookup_mem _ _ _ h
      have hind := table_first_indication (k, d) hk
      obtain ⟨e, he⟩ := Option.isSome_iff_exists.mp hind
      simp only [he]

theorem C8_witness :
    (calculate "foo" (pint 70) none false none false).isError = true ∧
    (calculate "foo" (pint 70) none false none
        false).widgetOf.type = "WarningCard" ∧
    (calculate "adrenalin" (pint 70) (some "headache") false none
        false).isError = true ∧
    (calculate "adrenalin" (pint 70) (some "headache") false none
        false).widgetOf.type = "WarningCard" ∧
    (calculate "adrenalin" (pint 70) (some "") false none false =
      calculate "adrenalin" (pint 70) none false none false) := by
  have h1 := (C8_thm "foo" (pint 70) none false none false).1 (by decide)
  have h2 := (C8_thm "adrenalin" (pint 70) (some "headache") false none
    false).2.1 ((EMERGENCY_DRUGS.lookup "adrenalin").getD default)
    "headache" (by decide) rfl (by decide) (by decide)
  refine ⟨?_, ?_, ?_, ?_, ?_⟩
  · rw [h1]
    rfl
  · rw [h1]
    rfl
  · rw [h2]
    rfl
  · rw [h2]
    rfl
  · exact (C8_thm "adrenalin" (pint 70) none false none false).2.2

/-- C9: when the drug short-circuit fires on a message with no weight
figure and no `weight_kg` in the patient context, the Drug Dosing Engine
is invoked with the silent default of 70.0 kg; and with a pediatric
keyword present (the weight still being the 70.0 default), with
20.0 kg. -/
theorem C9_thm (msg : String) (ctx : Option PatientContext)
    (p : DrugParams) (h : check_drug_query msg ctx = some p)
    (hw : extractWeight (pyLower msg) = none)
    (hc : (match ctx with
      | some c => c.weight_kg
      | none => none) = none) :
    ((pediatric_keywords.any fun kw =>
        strContains (pyLower msg) kw) = false →
      p.weight_kg = pfloat 70 1) ∧
    ((pediatric_keywords.any fun kw =>
        strContains (pyLower msg) kw) = true →
      p.weight_kg = pfloat 20 1) := by
  unfold check_drug_query at h
  simp only [] at h
  rcases hm : matchedDrug (pyLower msg) with _ | drug
  · rw [hm] at h
    simp only [] at h
    exact absurd h (by simp)
  · rw [hm] at h
    simp only [] at h
    by_cases hk : (!(dose_keywords.any fun kw =>
        strContains (pyLower msg) kw)) = true
    · rw [if_pos hk] at h
      exact absurd h (by simp)
    · rw [if_neg hk] at h
      simp only [Option.some.injEq] at h
      subst h
      rcases ctx with _ | c
      · constructor
        · intro hped
          simp only [hw, hped]
          rfl
        · intro hped
          simp only [hw, hped]
          rfl
      · have hcw : c.weight_kg = none := by simpa using hc
        constructor
        · intro hped
          simp only [hw, hped, hcw]
          rfl
        · intro hped
          simp only [hw, hped, hcw]
          rfl

theorem C9_witness :
    ((check_drug_query "adrenalin doz" none).getD default).weight_kg =
      pfloat 70 1 ∧
    ((check_drug_query "adrenalin doz cocuk" none).getD
        default).weight_kg = pfloat 20 1 := by
  constructor
  · exact (C9_thm "adrenalin doz" none _ (by decide) (by decide)
      (by decide)).1 (by decide)
  · exact (C9_thm "adrenalin doz cocuk" none _ (by decide) (by decide)
      (by decide)).2 (by decide)

/-- C10: `get_drug_indications` only case-folds its argument while
`calculate` also replaces separators, so every drug name that matches a
table key only after separator replacement gets an empty indication
list from `get_drug_indications` although `calculate` succeeds. -/
theorem C10_thm (name : String) (w : PyNum)
    (h1 : EMERGENCY_DRUGS.lookup (pyLower name) = none)
    (h2 : (EMERGENCY_DRUGS.lookup (normalizeKey name)).isSome = true) :
    get_drug_indications name = [] ∧
    (calculate name w none false none false).isError = false := by
  constructor
  · unfold get_drug_indications
    rw [h1]
  · obtain ⟨d, hd⟩ := Option.isSome_iff_exists.mp h2
    obtain ⟨k', hk⟩ := lookup_mem _ _ _ hd
    have hind := table_first_indication (k', d) hk
    obtain ⟨e, he⟩ := Option.isSome_iff_exists.mp hind
    unfold calculate
    simp only []
    rw [hd]
    simp only [he]
    rfl

theorem C10_witness :
    get_drug_indications "sodium bicarbonate" = [] ∧
    (calculate "sodium bicarbonate" (pint 70) none false none
        false).isError = false :=
  C10_thm "sodium bicarbonate" (pint 70) (by decide) (by decide)

end ParamedAI
